import Mathlib

/-!
Shallow embedding of the Storage Security Command protocol bindings from
`src/uefi/src/proto/media/security.rs` (`SecurityCommand::recv_data`,
`SecurityCommand::send_data`) and `src/uefi/src/proto/media/security_cmd.rs`
(`StorageSecurityCommand::receive_data`, `StorageSecurityCommand::send_data`).

The firmware entry points are external: they are modelled as parameters
(functions from the marshalled argument tuple to a reply).  Each binding is
embedded as a function that returns both its Rust-level outcome and the list
of firmware invocations it performed, so that "invoked exactly once with
these arguments" is a provable statement.  Machine integers are `Nat`; the
EFI status word is a `Nat` (64-bit usize in the source, with the high bit
set on error codes).  The possible panic of the slice indexing
`&data[..actual_size]` in `receive_data` is a distinguished outcome.
-/

/-- High (error) bit of a 64-bit EFI status word. -/
def Status.ERROR_BIT : Nat := 2 ^ 63

/-- `Status::SUCCESS`. -/
def Status.SUCCESS : Nat := 0

/-- `Status::INVALID_PARAMETER` (error code 2). -/
def Status.INVALID_PARAMETER : Nat := Status.ERROR_BIT + 2

/-- `Status::UNSUPPORTED` (error code 3). -/
def Status.UNSUPPORTED : Nat := Status.ERROR_BIT + 3

/-- `Status::BUFFER_TOO_SMALL` (error code 5). -/
def Status.BUFFER_TOO_SMALL : Nat := Status.ERROR_BIT + 5

/-- `Status::DEVICE_ERROR` (error code 7). -/
def Status.DEVICE_ERROR : Nat := Status.ERROR_BIT + 7

/-- `Status::NO_MEDIA` (error code 12). -/
def Status.NO_MEDIA : Nat := Status.ERROR_BIT + 12

/-- `Status::MEDIA_CHANGED` (error code 13). -/
def Status.MEDIA_CHANGED : Nat := Status.ERROR_BIT + 13

/-- `Status::TIMEOUT` (error code 18). -/
def Status.TIMEOUT : Nat := Status.ERROR_BIT + 18

/-- A caller-owned byte buffer (Rust `&[u8]` / `&mut [u8]`): its start
address and its contents.  The length of a Rust slice is fixed for the
duration of a call. -/
structure Buffer where
  ptr : Nat
  data : List Nat
deriving DecidableEq, Repr

/-- Argument tuple of one invocation of the firmware `ReceiveData` entry
point.  The fields are listed in the positional order of the C signature in
the source: `this`, `media_id : u32`, `timeout : u64`,
`security_protocol : u8`, `security_protocol_data : u16`, `len : usize`,
`buffer : *mut u8`.  The trailing `xfer_size : *mut usize` out-parameter is
modelled by the `xfer` field of `RecvReply` (the value the firmware writes
through that pointer). -/
structure RecvArgs where
  self : Nat
  media_id : Nat
  timeout : Nat
  security_protocol : Nat
  security_protocol_data : Nat
  len : Nat
  buffer : Nat
deriving DecidableEq, Repr

/-- What one firmware `ReceiveData` invocation produces: the returned
status, the post-call contents of the caller's buffer memory, and the value
written into the `xfer_size` out-slot. -/
structure RecvReply where
  status : Nat
  data : List Nat
  xfer : Nat
deriving DecidableEq, Repr

/-- A firmware `ReceiveData` entry-point behaviour. -/
def RecvFw : Type := RecvArgs → RecvReply

/-- Argument tuple of one invocation of the firmware `SendData` entry
point, fields in the positional order of the C signature: `this`,
`media_id : u32`, `timeout : u64`, `security_protocol : u8`,
`security_protocol_data : u16`, `len : usize`, `buffer : *const u8`. -/
structure SendArgs where
  self : Nat
  media_id : Nat
  timeout : Nat
  security_protocol : Nat
  security_protocol_data : Nat
  len : Nat
  buffer : Nat
deriving DecidableEq, Repr

/-- A firmware `SendData` entry-point behaviour: it only returns a status
(the buffer is read, not written). -/
def SendFw : Type := SendArgs → Nat

/-- Rust-level outcome of a binding call: `Ok`, `Err(status)` (the `uefi`
error wraps exactly the status it was converted from), or a panic of the
calling code. -/
inductive Outcome (α : Type) where
  | ok : α → Outcome α
  | err : Nat → Outcome α
  | panicked : Outcome α
deriving DecidableEq, Repr

/-- The argument tuple a receive binding hands to firmware, as both source
functions build it: the handle, the four descriptor fields unmodified, the
buffer's length and the buffer's start address. -/
def recvCallArgs (self media_id timeout proto proto_data : Nat) (buffer : Buffer) :
    RecvArgs :=
  ⟨self, media_id, timeout, proto, proto_data, buffer.data.length, buffer.ptr⟩

/-- The argument tuple a send binding hands to firmware. -/
def sendCallArgs (self media_id timeout proto proto_data : Nat) (buffer : Buffer) :
    SendArgs :=
  ⟨self, media_id, timeout, proto, proto_data, buffer.data.length, buffer.ptr⟩

/-- `SecurityCommand::recv_data` (security.rs): initialises `xfer_len := 0`,
makes one firmware call with `(self, media_id, timeout, proto, proto_data,
buffer.len(), buffer.as_mut_ptr(), &mut xfer_len)`, and matches the status:
`SUCCESS => Ok(xfer_len)`, `other => Err(other.into())`.  Returns the
outcome together with the list of firmware invocations made. -/
def SecurityCommand.recv_data (fw : RecvFw)
    (self media_id timeout proto proto_data : Nat) (buffer : Buffer) :
    Outcome Nat × List RecvArgs :=
  let args : RecvArgs := recvCallArgs self media_id timeout proto proto_data buffer
  let reply := fw args
  (if reply.status = Status.SUCCESS then Outcome.ok reply.xfer
   else Outcome.err reply.status, [args])

/-- `SecurityCommand::send_data` (security.rs): one firmware call with
`(self, media_id, timeout, proto, proto_data, buffer.len(),
buffer.as_ptr())`, then `.into()`: `Ok(())` iff the status is `SUCCESS`,
otherwise `Err` of that status. -/
def SecurityCommand.send_data (fw : SendFw)
    (self media_id timeout proto proto_data : Nat) (buffer : Buffer) :
    Outcome Unit × List SendArgs :=
  let args : SendArgs := sendCallArgs self media_id timeout proto proto_data buffer
  let st := fw args
  (if st = Status.SUCCESS then Outcome.ok () else Outcome.err st, [args])

/-- `StorageSecurityCommand::receive_data` (security_cmd.rs): initialises
`actual_size := 0`, makes one firmware call with `(&mut self.0, media_id,
timeout, protocol, protocol_specific, data.len(), data.as_mut_ptr(),
&mut actual_size)`, then `.to_result_with_val(|| &data[..actual_size])`:
on `SUCCESS` it slices the caller's (post-call) buffer contents, which
panics when `actual_size` exceeds the slice length; otherwise `Err` of the
status. -/
def StorageSecurityCommand.receive_data (fw : RecvFw)
    (self media_id timeout protocol protocol_specific : Nat) (data : Buffer) :
    Outcome (List Nat) × List RecvArgs :=
  let args : RecvArgs := recvCallArgs self media_id timeout protocol protocol_specific data
  let reply := fw args
  (if reply.status = Status.SUCCESS then
     if reply.xfer ≤ data.data.length then Outcome.ok (reply.data.take reply.xfer)
     else Outcome.panicked
   else Outcome.err reply.status, [args])

/-- `StorageSecurityCommand::send_data` (security_cmd.rs): one firmware
call with `(&mut self.0, media_id, timeout, protocol, protocol_specific,
data.len(), data.as_ptr())`, then `.to_result()`: `Ok(())` iff `SUCCESS`,
otherwise `Err` of that status. -/
def StorageSecurityCommand.send_data (fw : SendFw)
    (self media_id timeout protocol protocol_specific : Nat) (data : Buffer) :
    Outcome Unit × List SendArgs :=
  let args : SendArgs := sendCallArgs self media_id timeout protocol protocol_specific data
  let st := fw args
  (if st = Status.SUCCESS then Outcome.ok () else Outcome.err st, [args])

/-- Environment model of C memory: the firmware writes through the buffer
pointer it was given, so the post-call buffer contents have exactly the
length that was passed as the buffer length. -/
def WellFormedRecvFw (fw : RecvFw) : Prop :=
  ∀ a : RecvArgs, ((fw a).data).length = a.len

/-- The UEFI `ReceiveData` contract: when the firmware returns `SUCCESS`,
the transfer size it reports is at most the supplied buffer length. -/
def ConformingRecvFw (fw : RecvFw) : Prop :=
  ∀ a : RecvArgs, (fw a).status = Status.SUCCESS → (fw a).xfer ≤ a.len

/-- A concrete well-behaved receive firmware used as a witness: it fills
the whole buffer with zeros, reports the full length and returns success. -/
def fwRecvEcho : RecvFw :=
  fun a => ⟨Status.SUCCESS, List.replicate a.len 0, a.len⟩

/-- A concrete receive firmware that fails every call with
`BUFFER_TOO_SMALL`, writing nothing. -/
def fwRecvTooSmall : RecvFw :=
  fun a => ⟨Status.BUFFER_TOO_SMALL, List.replicate a.len 0, 0⟩

/-- A concrete non-conforming receive firmware: it returns `SUCCESS` but
reports a transfer size of 1 regardless of the buffer length. -/
def fwRecvOverrun : RecvFw :=
  fun a => ⟨Status.SUCCESS, List.replicate a.len 0, 1⟩

/-- A concrete send firmware that fails every call with
`BUFFER_TOO_SMALL`. -/
def fwSendBufTooSmall : SendFw :=
  fun _ => Status.BUFFER_TOO_SMALL

/-- A concrete send firmware that fails every call with `DEVICE_ERROR`. -/
def fwSendDevErr : SendFw :=
  fun _ => Status.DEVICE_ERROR

/-- A concrete send firmware that accepts every call. -/
def fwSendOk : SendFw :=
  fun _ => Status.SUCCESS

example : (SecurityCommand.recv_data fwRecvEcho 0 1 2 3 4 ⟨0, [9, 9]⟩).1 =
    Outcome.ok 2 := by decide

example : (StorageSecurityCommand.receive_data fwRecvEcho 0 1 2 3 4 ⟨0, [9, 9]⟩).1 =
    Outcome.ok [0, 0] := by decide

/-- C1: with a firmware satisfying the memory model and the UEFI
`ReceiveData` contract, a successful `SecurityCommand::recv_data` reports a
byte count at most the buffer's capacity, and a successful
`StorageSecurityCommand::receive_data` returns exactly the leading
reported-length bytes of the caller's buffer, whose length equals the
reported transfer size and is at most the capacity. -/
theorem c1_receive_length_bounded (fw : RecvFw)
    (hw : WellFormedRecvFw fw) (hc : ConformingRecvFw fw)
    (self media_id timeout proto proto_data : Nat) (buffer : Buffer) :
    (∀ n, (SecurityCommand.recv_data fw self media_id timeout proto proto_data buffer).1
        = Outcome.ok n → n ≤ buffer.data.length) ∧
    (∀ s, (StorageSecurityCommand.receive_data fw self media_id timeout proto proto_data
          buffer).1 = Outcome.ok s →
      s = ((fw (recvCallArgs self media_id timeout proto proto_data buffer)).data).take
            ((fw (recvCallArgs self media_id timeout proto proto_data buffer)).xfer) ∧
      s.length = (fw (recvCallArgs self media_id timeout proto proto_data buffer)).xfer ∧
      s.length ≤ buffer.data.length) := by
  constructor
  · intro n hn
    simp only [SecurityCommand.recv_data] at hn
    split at hn
    · rename_i hsu
      cases hn
      exact hc _ hsu
    · cases hn
  · intro s hs
    simp only [StorageSecurityCommand.receive_data] at hs
    split at hs
    · rename_i hsu
      split at hs
      · rename_i hle
        cases hs
        refine ⟨rfl, ?_, ?_⟩
        · rw [List.length_take, hw (recvCallArgs self media_id timeout proto proto_data buffer)]
          exact Nat.min_eq_left hle
        · rw [List.length_take]
          exact le_trans (Nat.min_le_left _ _) hle
      · cases hs
    · cases hs

/-- Witness for C1 at a concrete conforming firmware and a concrete
two-byte buffer. -/
theorem c1_receive_length_bounded_witness :
    WellFormedRecvFw fwRecvEcho ∧ ConformingRecvFw fwRecvEcho ∧
    (∀ n, (SecurityCommand.recv_data fwRecvEcho 0 1 2 3 4 ⟨0, [9, 9]⟩).1
        = Outcome.ok n → n ≤ (Buffer.mk 0 [9, 9]).data.length) := by
  have hw : WellFormedRecvFw fwRecvEcho := by
    intro a
    simp [fwRecvEcho]
  have hc : ConformingRecvFw fwRecvEcho := by
    intro a _
    simp [fwRecvEcho]
  exact ⟨hw, hc, (c1_receive_length_bounded fwRecvEcho hw hc 0 1 2 3 4 ⟨0, [9, 9]⟩).1⟩

/-- C2: for any firmware behaviour, each of the four bindings invokes the
firmware entry point exactly once, at the marshalled arguments, and returns
an error iff the firmware status is not `SUCCESS`; the error carries
exactly that status, with no substitution. -/
theorem c2_error_passthrough (rfw : RecvFw) (sfw : SendFw)
    (self media_id timeout proto proto_data : Nat) (buffer : Buffer) :
    (SecurityCommand.recv_data rfw self media_id timeout proto proto_data buffer).2
      = [recvCallArgs self media_id timeout proto proto_data buffer] ∧
    (StorageSecurityCommand.receive_data rfw self media_id timeout proto proto_data buffer).2
      = [recvCallArgs self media_id timeout proto proto_data buffer] ∧
    (SecurityCommand.send_data sfw self media_id timeout proto proto_data buffer).2
      = [sendCallArgs self media_id timeout proto proto_data buffer] ∧
    (StorageSecurityCommand.send_data sfw self media_id timeout proto proto_data buffer).2
      = [sendCallArgs self media_id timeout proto proto_data buffer] ∧
    (∀ e, (SecurityCommand.recv_data rfw self media_id timeout proto proto_data buffer).1
        = Outcome.err e ↔
      ((rfw (recvCallArgs self media_id timeout proto proto_data buffer)).status
          ≠ Status.SUCCESS ∧
        e = (rfw (recvCallArgs self media_id timeout proto proto_data buffer)).status)) ∧
    (∀ e, (StorageSecurityCommand.receive_data rfw self media_id timeout proto proto_data
          buffer).1 = Outcome.err e ↔
      ((rfw (recvCallArgs self media_id timeout proto proto_data buffer)).status
          ≠ Status.SUCCESS ∧
        e = (rfw (recvCallArgs self media_id timeout proto proto_data buffer)).status)) ∧
    (∀ e, (SecurityCommand.send_data sfw self media_id timeout proto proto_data buffer).1
        = Outcome.err e ↔
      (sfw (sendCallArgs self media_id timeout proto proto_data buffer) ≠ Status.SUCCESS ∧
        e = sfw (sendCallArgs self media_id timeout proto proto_data buffer))) ∧
    (∀ e, (StorageSecurityCommand.send_data sfw self media_id timeout proto proto_data
          buffer).1 = Outcome.err e ↔
      (sfw (sendCallArgs self media_id timeout proto proto_data buffer) ≠ Status.SUCCESS ∧
        e = sfw (sendCallArgs self media_id timeout proto proto_data buffer))) := by
  refine ⟨rfl, rfl, rfl, rfl, ?_, ?_, ?_, ?_⟩
  · intro e
    simp only [SecurityCommand.recv_data, recvCallArgs]
    split
    · rename_i hsu
      constructor
      · intro h
        cases h
      · rintro ⟨hne, _⟩
        exact absurd hsu hne
    · rename_i hsu
      constructor
      · intro h
        cases h
        exact ⟨hsu, rfl⟩
      · rintro ⟨_, he⟩
        rw [he]
  · intro e
    simp only [StorageSecurityCommand.receive_data, recvCallArgs]
    split
    · rename_i hsu
      split
      · constructor
        · intro h
          cases h
        · rintro ⟨hne, _⟩
          exact absurd hsu hne
      · constructor
        · intro h
          cases h
        · rintro ⟨hne, _⟩
          exact absurd hsu hne
    · rename_i hsu
      constructor
      · intro h
        cases h
        exact ⟨hsu, rfl⟩
      · rintro ⟨_, he⟩
        rw [he]
  · intro e
    simp only [SecurityCommand.send_data, sendCallArgs]
    split
    · rename_i hsu
      constructor
      · intro h
        cases h
      · rintro ⟨hne, _⟩
        exact absurd hsu hne
    · rename_i hsu
      constructor
      · intro h
        cases h
        exact ⟨hsu, rfl⟩
      · rintro ⟨_, he⟩
        rw [he]
  · intro e
    simp only [StorageSecurityCommand.send_data, sendCallArgs]
    split
    · rename_i hsu
      constructor
      · intro h
        cases h
      · rintro ⟨hne, _⟩
        exact absurd hsu hne
    · rename_i hsu
      constructor
      · intro h
        cases h
        exact ⟨hsu, rfl⟩
      · rintro ⟨_, he⟩
        rw [he]

/-- C3: both send bindings invoke the firmware send entry point exactly
with the tuple (handle, media id, timeout, protocol selector,
protocol-specific selector, buffer length, buffer address), each value
unmodified, the fields in the positional order of the C signature mirrored
by `SendArgs`; and the values fit the declared widths (`u32`, `u64`, `u8`,
`u16`). -/
theorem c3_send_marshaling (fw : SendFw)
    (self media_id timeout proto proto_data : Nat) (buffer : Buffer)
    (h32 : media_id < 2 ^ 32) (h64 : timeout < 2 ^ 64)
    (h8 : proto < 2 ^ 8) (h16 : proto_data < 2 ^ 16) :
    (SecurityCommand.send_data fw self media_id timeout proto proto_data buffer).2
      = [⟨self, media_id, timeout, proto, proto_data, buffer.data.length, buffer.ptr⟩] ∧
    (StorageSecurityCommand.send_data fw self media_id timeout proto proto_data buffer).2
      = [⟨self, media_id, timeout, proto, proto_data, buffer.data.length, buffer.ptr⟩] ∧
    (sendCallArgs self media_id timeout proto proto_data buffer).media_id < 2 ^ 32 ∧
    (sendCallArgs self media_id timeout proto proto_data buffer).timeout < 2 ^ 64 ∧
    (sendCallArgs self media_id timeout proto proto_data buffer).security_protocol < 2 ^ 8 ∧
    (sendCallArgs self media_id timeout proto proto_data buffer).security_protocol_data
      < 2 ^ 16 ∧
    (sendCallArgs self media_id timeout proto proto_data buffer).len = buffer.data.length ∧
    (sendCallArgs self media_id timeout proto proto_data buffer).buffer = buffer.ptr :=
  ⟨rfl, rfl, h32, h64, h8, h16, rfl, rfl⟩

/-- Witness for C3 at concrete in-range descriptor values. -/
theorem c3_send_marshaling_witness :
    (3 : Nat) < 2 ^ 32 ∧ (7 : Nat) < 2 ^ 64 ∧ (1 : Nat) < 2 ^ 8 ∧ (2 : Nat) < 2 ^ 16 ∧
    (SecurityCommand.send_data fwSendOk 0 3 7 1 2 ⟨0, [170, 1]⟩).2
      = [⟨0, 3, 7, 1, 2, (Buffer.mk 0 [170, 1]).data.length, (Buffer.mk 0 [170, 1]).ptr⟩] :=
  ⟨by decide, by decide, by decide, by decide,
    (c3_send_marshaling fwSendOk 0 3 7 1 2 ⟨0, [170, 1]⟩ (by decide) (by decide)
      (by decide) (by decide)).1⟩

/-- C4: both receive bindings invoke the firmware receive entry point with
the same descriptor fields as send plus the buffer's capacity and start
address (the out-slot being the `xfer` reply field); on success
`recv_data` returns exactly the value the firmware wrote into the out-slot,
and `receive_data` returns a slice whose length is that value (given the
memory model and the `ReceiveData` contract). -/
theorem c4_receive_marshaling (fw : RecvFw)
    (hw : WellFormedRecvFw fw) (hc : ConformingRecvFw fw)
    (self media_id timeout proto proto_data : Nat) (buffer : Buffer) :
    (SecurityCommand.recv_data fw self media_id timeout proto proto_data buffer).2
      = [⟨self, media_id, timeout, proto, proto_data, buffer.data.length, buffer.ptr⟩] ∧
    (StorageSecurityCommand.receive_data fw self media_id timeout proto proto_data buffer).2
      = [⟨self, media_id, timeout, proto, proto_data, buffer.data.length, buffer.ptr⟩] ∧
    (recvCallArgs self media_id timeout proto proto_data buffer).len
      = buffer.data.length ∧
    (recvCallArgs self media_id timeout proto proto_data buffer).buffer = buffer.ptr ∧
    ((fw (recvCallArgs self media_id timeout proto proto_data buffer)).status
        = Status.SUCCESS →
      (SecurityCommand.recv_data fw self media_id timeout proto proto_data buffer).1
        = Outcome.ok ((fw (recvCallArgs self media_id timeout proto proto_data buffer)).xfer)) ∧
    (∀ s, (StorageSecurityCommand.receive_data fw self media_id timeout proto proto_data
          buffer).1 = Outcome.ok s →
      s.length = (fw (recvCallArgs self media_id timeout proto proto_data buffer)).xfer) := by
  refine ⟨rfl, rfl, rfl, rfl, ?_, ?_⟩
  · intro hsu
    simp only [SecurityCommand.recv_data, hsu, if_pos]
  · intro s hs
    exact ((c1_receive_length_bounded fw hw hc self media_id timeout proto proto_data
      buffer).2 s hs).2.1

/-- Witness for C4 at a concrete conforming firmware. -/
theorem c4_receive_marshaling_witness :
    WellFormedRecvFw fwRecvEcho ∧ ConformingRecvFw fwRecvEcho ∧
    (SecurityCommand.recv_data fwRecvEcho 0 1 2 3 4 ⟨5, [9, 9]⟩).2
      = [⟨0, 1, 2, 3, 4, (Buffer.mk 5 [9, 9]).data.length, (Buffer.mk 5 [9, 9]).ptr⟩] := by
  have hw : WellFormedRecvFw fwRecvEcho := by
    intro a
    simp [fwRecvEcho]
  have hc : ConformingRecvFw fwRecvEcho := by
    intro a _
    simp [fwRecvEcho]
  exact ⟨hw, hc, (c4_receive_marshaling fwRecvEcho hw hc 0 1 2 3 4 ⟨5, [9, 9]⟩).1⟩

/-- C5: when the firmware answers a receive call with `BUFFER_TOO_SMALL`,
both receive bindings return exactly the `BufferTooSmall` error, and
neither returns any success value. -/
theorem c5_buffer_too_small (fw : RecvFw)
    (self media_id timeout proto proto_data : Nat) (buffer : Buffer)
    (h : (fw (recvCallArgs self media_id timeout proto proto_data buffer)).status
      = Status.BUFFER_TOO_SMALL) :
    (SecurityCommand.recv_data fw self media_id timeout proto proto_data buffer).1
      = Outcome.err Status.BUFFER_TOO_SMALL ∧
    (StorageSecurityCommand.receive_data fw self media_id timeout proto proto_data buffer).1
      = Outcome.err Status.BUFFER_TOO_SMALL ∧
    (∀ n, (SecurityCommand.recv_data fw self media_id timeout proto proto_data buffer).1
      ≠ Outcome.ok n) ∧
    (∀ s, (StorageSecurityCommand.receive_data fw self media_id timeout proto proto_data
      buffer).1 ≠ Outcome.ok s) := by
  have hne : Status.BUFFER_TOO_SMALL ≠ Status.SUCCESS := by decide
  refine ⟨?_, ?_, ?_, ?_⟩
  · simp only [SecurityCommand.recv_data, h, if_neg hne]
  · simp only [StorageSecurityCommand.receive_data, h, if_neg hne]
  · intro n
    simp only [SecurityCommand.recv_data, h, if_neg hne]
    intro hcontra
    cases hcontra
  · intro s
    simp only [StorageSecurityCommand.receive_data, h, if_neg hne]
    intro hcontra
    cases hcontra

/-- Witness for C5 at the concrete firmware that always reports
`BUFFER_TOO_SMALL`. -/
theorem c5_buffer_too_small_witness :
    (fwRecvTooSmall (recvCallArgs 0 1 2 3 4 ⟨0, [9, 9]⟩)).status
      = Status.BUFFER_TOO_SMALL ∧
    (SecurityCommand.recv_data fwRecvTooSmall 0 1 2 3 4 ⟨0, [9, 9]⟩).1
      = Outcome.err Status.BUFFER_TOO_SMALL :=
  ⟨rfl, (c5_buffer_too_small fwRecvTooSmall 0 1 2 3 4 ⟨0, [9, 9]⟩ rfl).1⟩

/-- C6 counterexample: the send bindings pass any firmware status through,
so with a firmware returning `BUFFER_TOO_SMALL` for a send call,
`send_data` returns the `BufferTooSmall` error — which is not among the six
kinds the claim allows for send. -/
theorem c6_counterexample :
    (SecurityCommand.send_data fwSendBufTooSmall 0 0 0 0 0 ⟨0, []⟩).1
      = Outcome.err Status.BUFFER_TOO_SMALL ∧
    (StorageSecurityCommand.send_data fwSendBufTooSmall 0 0 0 0 0 ⟨0, []⟩).1
      = Outcome.err Status.BUFFER_TOO_SMALL ∧
    Status.BUFFER_TOO_SMALL ∉ [Status.UNSUPPORTED, Status.DEVICE_ERROR, Status.NO_MEDIA,
      Status.MEDIA_CHANGED, Status.INVALID_PARAMETER, Status.TIMEOUT] := by
  refine ⟨?_, ?_, ?_⟩ <;> decide

/-- C6 (amended): a send error is exactly the converted firmware status, so
whenever the firmware returns one of its six documented send statuses, the
error either binding surfaces is among those six kinds and is never
`BufferTooSmall`. -/
theorem c6_send_error_kinds (fw : SendFw)
    (self media_id timeout proto proto_data : Nat) (buffer : Buffer)
    (hdoc : fw (sendCallArgs self media_id timeout proto proto_data buffer)
      ∈ [Status.UNSUPPORTED, Status.DEVICE_ERROR, Status.NO_MEDIA,
         Status.MEDIA_CHANGED, Status.INVALID_PARAMETER, Status.TIMEOUT]) :
    (∀ e, (SecurityCommand.send_data fw self media_id timeout proto proto_data buffer).1
        = Outcome.err e →
      e ∈ [Status.UNSUPPORTED, Status.DEVICE_ERROR, Status.NO_MEDIA,
           Status.MEDIA_CHANGED, Status.INVALID_PARAMETER, Status.TIMEOUT] ∧
      e ≠ Status.BUFFER_TOO_SMALL) ∧
    (∀ e, (StorageSecurityCommand.send_data fw self media_id timeout proto proto_data
          buffer).1 = Outcome.err e →
      e ∈ [Status.UNSUPPORTED, Status.DEVICE_ERROR, Status.NO_MEDIA,
           Status.MEDIA_CHANGED, Status.INVALID_PARAMETER, Status.TIMEOUT] ∧
      e ≠ Status.BUFFER_TOO_SMALL) := by
  have hbts : Status.BUFFER_TOO_SMALL ∉ [Status.UNSUPPORTED, Status.DEVICE_ERROR,
      Status.NO_MEDIA, Status.MEDIA_CHANGED, Status.INVALID_PARAMETER, Status.TIMEOUT] := by
    decide
  constructor
  · intro e he
    simp only [SecurityCommand.send_data] at he
    split at he
    · cases he
    · cases he
      refine ⟨hdoc, ?_⟩
      intro heq
      rw [heq] at hdoc
      exact hbts hdoc
  · intro e he
    simp only [StorageSecurityCommand.send_data] at he
    split at he
    · cases he
    · cases he
      refine ⟨hdoc, ?_⟩
      intro heq
      rw [heq] at hdoc
      exact hbts hdoc

/-- Witness for the amended C6 at the concrete firmware that always
returns `DEVICE_ERROR`. -/
theorem c6_send_error_kinds_witness :
    fwSendDevErr (sendCallArgs 0 0 0 0 0 ⟨0, []⟩)
      ∈ [Status.UNSUPPORTED, Status.DEVICE_ERROR, Status.NO_MEDIA,
         Status.MEDIA_CHANGED, Status.INVALID_PARAMETER, Status.TIMEOUT] ∧
    (Status.DEVICE_ERROR ∈ [Status.UNSUPPORTED, Status.DEVICE_ERROR, Status.NO_MEDIA,
         Status.MEDIA_CHANGED, Status.INVALID_PARAMETER, Status.TIMEOUT] ∧
      Status.DEVICE_ERROR ≠ Status.BUFFER_TOO_SMALL) :=
  ⟨by decide,
    (c6_send_error_kinds fwSendDevErr 0 0 0 0 0 ⟨0, []⟩ (by decide)).1
      Status.DEVICE_ERROR (by decide)⟩

/-- C7: with `timeout = 0`, every binding passes the value 0 through to the
firmware unchanged, and the outcome is still exactly the conversion of the
firmware's returned status — in particular a `Timeout` error arises only
when the firmware itself returns the `TIMEOUT` status. -/
theorem c7_zero_timeout (rfw : RecvFw) (sfw : SendFw)
    (self media_id timeout proto proto_data : Nat) (buffer : Buffer)
    (h0 : timeout = 0) :
    (recvCallArgs self media_id timeout proto proto_data buffer).timeout = 0 ∧
    (sendCallArgs self media_id timeout proto proto_data buffer).timeout = 0 ∧
    (SecurityCommand.recv_data rfw self media_id timeout proto proto_data buffer).2
      = [recvCallArgs self media_id 0 proto proto_data buffer] ∧
    (SecurityCommand.send_data sfw self media_id timeout proto proto_data buffer).2
      = [sendCallArgs self media_id 0 proto proto_data buffer] ∧
    (StorageSecurityCommand.receive_data rfw self media_id timeout proto proto_data buffer).2
      = [recvCallArgs self media_id 0 proto proto_data buffer] ∧
    (StorageSecurityCommand.send_data sfw self media_id timeout proto proto_data buffer).2
      = [sendCallArgs self media_id 0 proto proto_data buffer] ∧
    ((SecurityCommand.send_data sfw self media_id timeout proto proto_data buffer).1
        = Outcome.err Status.TIMEOUT →
      sfw (sendCallArgs self media_id 0 proto proto_data buffer) = Status.TIMEOUT) ∧
    ((SecurityCommand.recv_data rfw self media_id timeout proto proto_data buffer).1
        = Outcome.err Status.TIMEOUT →
      (rfw (recvCallArgs self media_id 0 proto proto_data buffer)).status
        = Status.TIMEOUT) ∧
    ((StorageSecurityCommand.send_data sfw self media_id timeout proto proto_data buffer).1
        = Outcome.err Status.TIMEOUT →
      sfw (sendCallArgs self media_id 0 proto proto_data buffer) = Status.TIMEOUT) ∧
    ((StorageSecurityCommand.receive_data rfw self media_id timeout proto proto_data
        buffer).1 = Outcome.err Status.TIMEOUT →
      (rfw (recvCallArgs self media_id 0 proto proto_data buffer)).status
        = Status.TIMEOUT) := by
  subst h0
  refine ⟨rfl, rfl, rfl, rfl, rfl, rfl, ?_, ?_, ?_, ?_⟩
  · intro he
    simp only [SecurityCommand.send_data] at he
    split at he
    · cases he
    · injection he with h
  · intro he
    simp only [SecurityCommand.recv_data] at he
    split at he
    · cases he
    · injection he with h
  · intro he
    simp only [StorageSecurityCommand.send_data] at he
    split at he
    · cases he
    · injection he with h
  · intro he
    simp only [StorageSecurityCommand.receive_data] at he
    split at he
    · split at he
      · cases he
      · cases he
    · injection he with h

/-- Witness for C7 at concrete inputs with `timeout = 0`. -/
theorem c7_zero_timeout_witness :
    (0 : Nat) = 0 ∧ (recvCallArgs 9 1 0 3 4 ⟨0, [9]⟩).timeout = 0 :=
  ⟨rfl, (c7_zero_timeout fwRecvEcho fwSendOk 9 1 0 3 4 ⟨0, [9]⟩ rfl).1⟩

/-- C8: sending an empty buffer passes length 0 together with the buffer's
own pointer to the firmware, and the outcome is exactly the conversion of
the firmware's status (success iff `SUCCESS`, otherwise that very error) —
no parameter validation happens in the binding. -/
theorem c8_empty_send (fw : SendFw)
    (self media_id timeout proto proto_data : Nat) (buffer : Buffer)
    (hempty : buffer.data = []) :
    (SecurityCommand.send_data fw self media_id timeout proto proto_data buffer).2
      = [⟨self, media_id, timeout, proto, proto_data, 0, buffer.ptr⟩] ∧
    (StorageSecurityCommand.send_data fw self media_id timeout proto proto_data buffer).2
      = [⟨self, media_id, timeout, proto, proto_data, 0, buffer.ptr⟩] ∧
    ((SecurityCommand.send_data fw self media_id timeout proto proto_data buffer).1
        = Outcome.ok () ↔
      fw (sendCallArgs self media_id timeout proto proto_data buffer) = Status.SUCCESS) ∧
    (∀ e, (SecurityCommand.send_data fw self media_id timeout proto proto_data buffer).1
        = Outcome.err e ↔
      (fw (sendCallArgs self media_id timeout proto proto_data buffer) ≠ Status.SUCCESS ∧
        e = fw (sendCallArgs self media_id timeout proto proto_data buffer))) ∧
    ((StorageSecurityCommand.send_data fw self media_id timeout proto proto_data buffer).1
        = Outcome.ok () ↔
      fw (sendCallArgs self media_id timeout proto proto_data buffer) = Status.SUCCESS) ∧
    (∀ e, (StorageSecurityCommand.send_data fw self media_id timeout proto proto_data
          buffer).1 = Outcome.err e ↔
      (fw (sendCallArgs self media_id timeout proto proto_data buffer) ≠ Status.SUCCESS ∧
        e = fw (sendCallArgs self media_id timeout proto proto_data buffer))) := by
  obtain ⟨p, d⟩ := buffer
  cases hempty
  refine ⟨rfl, rfl, ?_, ?_, ?_, ?_⟩
  · simp only [SecurityCommand.send_data]
    split
    · rename_i hsu
      simp only [hsu]
    · rename_i hsu
      constructor
      · intro hcontra
        cases hcontra
      · intro h
        exact absurd h hsu
  · intro e
    exact (c2_error_passthrough fwRecvEcho fw self media_id timeout proto proto_data
      ⟨p, []⟩).2.2.2.2.2.2.1 e
  · simp only [StorageSecurityCommand.send_data]
    split
    · rename_i hsu
      simp only [hsu]
    · rename_i hsu
      constructor
      · intro hcontra
        cases hcontra
      · intro h
        exact absurd h hsu
  · intro e
    exact (c2_error_passthrough fwRecvEcho fw self media_id timeout proto proto_data
      ⟨p, []⟩).2.2.2.2.2.2.2 e

/-- Witness for C8 at a concrete empty buffer. -/
theorem c8_empty_send_witness :
    (Buffer.mk 42 []).data = ([] : List Nat) ∧
    (SecurityCommand.send_data fwSendOk 0 1 2 3 4 ⟨42, []⟩).2
      = [⟨0, 1, 2, 3, 4, 0, (Buffer.mk 42 []).ptr⟩] :=
  ⟨rfl, (c8_empty_send fwSendOk 0 1 2 3 4 ⟨42, []⟩ rfl).1⟩

/-- C9: on a success status, `StorageSecurityCommand::receive_data`'s slice
`&data[..actual_size]` is in bounds, and the call returns the slice, exactly
when the firmware-reported actual size is at most the buffer's length; a
firmware reporting a larger value on success makes the call panic instead
of returning an error. -/
theorem c9_receive_slice_panic (fw : RecvFw)
    (self media_id timeout proto proto_data : Nat) (data : Buffer)
    (hsu : (fw (recvCallArgs self media_id timeout proto proto_data data)).status
      = Status.SUCCESS) :
    ((fw (recvCallArgs self media_id timeout proto proto_data data)).xfer
        ≤ data.data.length →
      (StorageSecurityCommand.receive_data fw self media_id timeout proto proto_data
          data).1
        = Outcome.ok (((fw (recvCallArgs self media_id timeout proto proto_data data)).data).take
            ((fw (recvCallArgs self media_id timeout proto proto_data data)).xfer))) ∧
    (data.data.length
        < (fw (recvCallArgs self media_id timeout proto proto_data data)).xfer →
      (StorageSecurityCommand.receive_data fw self media_id timeout proto proto_data
          data).1 = Outcome.panicked) := by
  constructor
  · intro hle
    simp only [StorageSecurityCommand.receive_data, hsu, if_pos, if_pos hle]
  · intro hgt
    simp only [StorageSecurityCommand.receive_data, hsu, if_pos,
      if_neg (Nat.not_le_of_lt hgt)]

/-- Witness for C9: the overrunning firmware reports size 1 for an empty
buffer under a success status, and the call panics. -/
theorem c9_receive_slice_panic_witness :
    (fwRecvOverrun (recvCallArgs 0 0 0 0 0 ⟨0, []⟩)).status = Status.SUCCESS ∧
    (Buffer.mk 0 []).data.length < (fwRecvOverrun (recvCallArgs 0 0 0 0 0 ⟨0, []⟩)).xfer ∧
    (StorageSecurityCommand.receive_data fwRecvOverrun 0 0 0 0 0 ⟨0, []⟩).1
      = Outcome.panicked :=
  ⟨rfl, by decide,
    (c9_receive_slice_panic fwRecvOverrun 0 0 0 0 0 ⟨0, []⟩ rfl).2 (by decide)⟩

/-- C10 counterexample: under one and the same firmware behaviour (success
status, reported size 1, any buffer) and an empty buffer, `recv_data`
returns `Ok(1)` while `receive_data` panics — the two bindings do not
produce the same outcome for every firmware behaviour. -/
theorem c10_counterexample :
    (SecurityCommand.recv_data fwRecvOverrun 0 0 0 0 0 ⟨0, []⟩).1 = Outcome.ok 1 ∧
    (StorageSecurityCommand.receive_data fwRecvOverrun 0 0 0 0 0 ⟨0, []⟩).1
      = Outcome.panicked := by
  refine ⟨?_, ?_⟩ <;> decide

/-- C10 (amended): given the same firmware behaviour, the two send bindings
return literally identical results; and whenever the firmware satisfies the
memory model and the `ReceiveData` contract (reported size ≤ buffer length
on success), `recv_data` and `receive_data` have matching outcomes:
`recv_data` succeeds with byte count `n` iff `receive_data` succeeds with a
slice of length `n`, and they return exactly the same errors.  Without the
contract the bindings differ: `receive_data` panics where `recv_data`
returns the oversized count. -/
theorem c10_equivalence (rfw : RecvFw) (sfw : SendFw)
    (hw : WellFormedRecvFw rfw) (hc : ConformingRecvFw rfw)
    (self media_id timeout proto proto_data : Nat) (buffer : Buffer) :
    SecurityCommand.send_data sfw self media_id timeout proto proto_data buffer
      = StorageSecurityCommand.send_data sfw self media_id timeout proto proto_data buffer ∧
    (∀ n, (SecurityCommand.recv_data rfw self media_id timeout proto proto_data buffer).1
        = Outcome.ok n ↔
      ∃ s, (StorageSecurityCommand.receive_data rfw self media_id timeout proto proto_data
          buffer).1 = Outcome.ok s ∧ s.length = n) ∧
    (∀ e, (SecurityCommand.recv_data rfw self media_id timeout proto proto_data buffer).1
        = Outcome.err e ↔
      (StorageSecurityCommand.receive_data rfw self media_id timeout proto proto_data
        buffer).1 = Outcome.err e) := by
  refine ⟨rfl, ?_, ?_⟩
  · intro n
    constructor
    · intro hn
      simp only [SecurityCommand.recv_data] at hn
      split at hn
      · rename_i hsu
        cases hn
        have hle := hc _ hsu
        refine ⟨((rfw (recvCallArgs self media_id timeout proto proto_data buffer)).data).take
          ((rfw (recvCallArgs self media_id timeout proto proto_data buffer)).xfer),
          (c9_receive_slice_panic rfw self media_id timeout proto proto_data buffer
            hsu).1 hle, ?_⟩
        rw [List.length_take, hw (recvCallArgs self media_id timeout proto proto_data buffer)]
        exact Nat.min_eq_left hle
      · cases hn
    · rintro ⟨s, hs, hlen⟩
      simp only [StorageSecurityCommand.receive_data] at hs
      split at hs
      · rename_i hsu
        split at hs
        · cases hs
          simp only [SecurityCommand.recv_data, hsu, if_pos]
          rw [← hlen, List.length_take,
            hw (recvCallArgs self media_id timeout proto proto_data buffer)]
          rw [Nat.min_eq_left (hc _ hsu)]
        · cases hs
      · cases hs
  · intro e
    constructor
    · intro he
      simp only [SecurityCommand.recv_data] at he
      split at he
      · cases he
      · rename_i hsu
        cases he
        simp only [StorageSecurityCommand.receive_data, if_neg hsu]
    · intro he
      simp only [StorageSecurityCommand.receive_data] at he
      split at he
      · split at he
        · cases he
        · cases he
      · rename_i hsu
        cases he
        simp only [SecurityCommand.recv_data, if_neg hsu]

/-- Witness for the amended C10 at a concrete conforming firmware: the two
send bindings agree, and the receive outcomes correspond on a two-byte
buffer. -/
theorem c10_equivalence_witness :
    WellFormedRecvFw fwRecvEcho ∧ ConformingRecvFw fwRecvEcho ∧
    SecurityCommand.send_data fwSendOk 0 1 2 3 4 ⟨0, [5, 6]⟩
      = StorageSecurityCommand.send_data fwSendOk 0 1 2 3 4 ⟨0, [5, 6]⟩ ∧
    ∃ s, (StorageSecurityCommand.receive_data fwRecvEcho 0 1 2 3 4 ⟨0, [5, 6]⟩).1
        = Outcome.ok s ∧ s.length = 2 := by
  have hw : WellFormedRecvFw fwRecvEcho := by
    intro a
    simp [fwRecvEcho]
  have hc : ConformingRecvFw fwRecvEcho := by
    intro a _
    simp [fwRecvEcho]
  have h := c10_equivalence fwRecvEcho fwSendOk hw hc 0 1 2 3 4 ⟨0, [5, 6]⟩
  exact ⟨hw, hc, h.1, (h.2.1 2).mp (by decide)⟩
